import Mathlib

/-!
Verification development for the WorkdayDebrief repository.

The data model is embedded from `src/types/index.ts`; the settings panel
logic from `settings-panel-v2.tsx`; the summary review panel from
`summary-review-panel.tsx`; the send modal from `send-modal.tsx`.
The Rust orchestration core (`src-tauri`) is not part of the frontend
sources; where a claim depends on it, the corresponding definition is
modelled from the specification and marked as such in its doc comment.
-/

namespace WorkdayDebrief

/-! ## Data model (from src/types/index.ts) -/

/-- Ticket row, from the `Ticket` interface. -/
structure Ticket where
  id : String
  title : String
  status : String
  url : String
  resolvedAt : Option String
deriving DecidableEq, Repr

/-- Meeting row, from the `Meeting` interface (`end` is a reserved word in
Lean, rendered `endTime`). -/
structure Meeting where
  title : String
  start : String
  endTime : String
  durationMinutes : Nat
deriving DecidableEq, Repr

/-- Per-source status enum, from the `SourceStatus` enum. -/
inductive SourceStatus where
  | Ok
  | Failed
  | NotConfigured
deriving DecidableEq, Repr

/-- Per-source status detail, from the `SourceStatusDetail` interface. -/
structure SourceStatusDetail where
  status : SourceStatus
  fetchedAt : Option String
  error : Option String
deriving DecidableEq, Repr

/-- Per-source status record, from the `DataSourcesStatus` interface: it has
exactly the three fields `jira`, `calendar`, `toggl`. -/
structure DataSourcesStatus where
  jira : SourceStatusDetail
  calendar : SourceStatusDetail
  toggl : SourceStatusDetail
deriving DecidableEq, Repr

/-- Merged aggregation result, from the `AggregatedData` interface.
`focusHours` is a float in the source; it is embedded as `Rat`, which the
claims treat opaquely (no float arithmetic is verified). -/
structure AggregatedData where
  ticketsClosed : List Ticket
  ticketsInProgress : List Ticket
  meetings : List Meeting
  focusHours : Rat
  dataSourcesStatus : DataSourcesStatus
deriving DecidableEq, Repr

/-- Stored summary row, from the `SummaryResponse` interface. -/
structure SummaryResponse where
  id : Nat
  summaryDate : String
  ticketsClosed : List Ticket
  ticketsInProgress : List Ticket
  meetings : List Meeting
  focusHours : Rat
  blockers : String
  tomorrowPriorities : String
  manualNotes : String
  narrative : String
  tone : String
  deliveredTo : List String
  createdAt : String
  updatedAt : String
  sourcesStatus : DataSourcesStatus
deriving DecidableEq, Repr

/-- Draft-save payload, from the `SummaryInput` interface: exactly five
optional user-editable fields. -/
structure SummaryInput where
  blockers : Option String
  tomorrowPriorities : Option String
  manualNotes : Option String
  narrative : Option String
  tone : Option String
deriving DecidableEq, Repr

/-- Per-channel delivery outcome, from the `DeliveryConfirmation` interface. -/
structure DeliveryConfirmation where
  deliveryType : String
  success : Bool
  message : String
  timestamp : String
deriving DecidableEq, Repr

/-- Singleton settings row, from the `Settings` interface.  `llmTemperature`
is a float in the source, embedded as `Rat`. -/
structure Settings where
  scheduledTime : String
  defaultTone : String
  enableLlm : Bool
  llmModel : String
  llmTemperature : Rat
  llmTimeoutSecs : Int
  calendarSource : String
  retentionDays : Int
  jiraBaseUrl : Option String
  jiraProjectKey : Option String
  togglWorkspaceId : Option String
deriving DecidableEq, Repr

/-! ## JavaScript parseInt model

`validateTime` in settings-panel-v2.tsx calls the host `parseInt` with no
radix argument.  The embedding below follows the ECMAScript definition for
that case: skip leading whitespace, read an optional sign, detect an
`0x`/`0X` hex marker (radix 16, otherwise radix 10), then parse the longest
prefix of valid digits, giving NaN (here `none`) when that prefix is empty.
Trailing non-digit characters are ignored. -/

/-- Numeric value of a character as a digit in the given radix, `none` when
the character is not a valid digit for that radix. -/
def jsDigitVal (radix : Nat) (c : Char) : Option Nat :=
  let v : Option Nat :=
    if c.isDigit then some (c.toNat - 48)
    else if ('a' ≤ c ∧ c ≤ 'z') then some (c.toNat - 97 + 10)
    else if ('A' ≤ c ∧ c ≤ 'Z') then some (c.toNat - 65 + 10)
    else none
  match v with
  | some n => if n < radix then some n else none
  | none => none

/-- Longest-prefix digit accumulation; the accumulator is `none` until the
first valid digit has been read (parseInt returns NaN on an empty digit
prefix). -/
def jsParseDigits (radix : Nat) : List Char → Option Nat → Option Nat
  | [], acc => acc
  | c :: cs, acc =>
    match jsDigitVal radix c with
    | some d => jsParseDigits radix cs (some ((acc.getD 0) * radix + d))
    | none => acc

/-- Characters parseInt skips before the number (the common whitespace
forms). -/
def jsIsWhitespace (c : Char) : Bool :=
  c = ' ' ∨ c = '\t' ∨ c = '\n' ∨ c = '\r'

/-- JavaScript `parseInt` on a character sequence; `none` models NaN. -/
def jsParseIntChars (cs0 : List Char) : Option Int :=
  let cs := cs0.dropWhile jsIsWhitespace
  let signed : Int × List Char :=
    match cs with
    | '-' :: rest => (-1, rest)
    | '+' :: rest => (1, rest)
    | _ => (1, cs)
  let prefixed : Nat × List Char :=
    match signed.2 with
    | '0' :: 'x' :: rest => (16, rest)
    | '0' :: 'X' :: rest => (16, rest)
    | _ => (10, signed.2)
  (jsParseDigits prefixed.1 prefixed.2 none).map (fun n => signed.1 * (n : Int))

/-- JavaScript `parseInt(s)` with no radix argument; `none` models NaN. -/
def jsParseInt (s : String) : Option Int :=
  jsParseIntChars s.toList

/-- JavaScript `s.split(sep)` for a one-character separator, on the
character sequence: the empty input gives one empty part, a trailing
separator a trailing empty part. -/
def splitOnChar (sep : Char) : List Char → List (List Char)
  | [] => [[]]
  | c :: cs =>
    if c = sep then [] :: splitOnChar sep cs
    else
      match splitOnChar sep cs with
      | [] => [[c]]
      | p :: ps => (c :: p) :: ps

/-! ## Settings panel (from settings-panel-v2.tsx) -/

/-- The hour/minute range check of `validateTime` after both parseInt calls:
`none` models an `isNaN` result, which fails the check. -/
def validateHourMinute : Option Int → Option Int → Bool
  | some hour, some minute =>
    decide (0 ≤ hour ∧ hour ≤ 23 ∧ 0 ≤ minute ∧ minute ≤ 59)
  | _, _ => false

/-- The `parts.length !== 2` guard of `validateTime` followed by the range
check on the two parts. -/
def validateTimeParts : List (List Char) → Bool
  | [h, m] => validateHourMinute (jsParseIntChars h) (jsParseIntChars m)
  | _ => false

/-- Scheduled-time validator, from `validateTime` in settings-panel-v2.tsx:
split on a colon, require exactly two parts, parseInt each part and require
hour 0..23 and minute 0..59. -/
def validateTime (time : String) : Bool :=
  validateTimeParts (splitOnChar ':' time.toList)

/-- Form state of the settings panel relevant to `validateSettings` and
`handleSave` (display-only state such as tab selection is omitted). -/
structure SettingsFormState where
  scheduledTime : String
  defaultTone : String
  enableLlm : Bool
  llmModel : String
  llmTemperature : Rat
  llmTimeout : Int
  jiraBaseUrl : String
  jiraProjectKey : String
  jiraEmail : String
  jiraApiToken : String
  togglWorkspaceId : String
  togglApiToken : String
  retentionDays : Int
deriving DecidableEq, Repr

/-- The masked-secret sentinel shown for stored credentials. -/
def maskSentinel : String := "••••••"

/-- Settings validation, from `validateSettings`: the returned association
list is the `newErrors` record (field name, message).  `validUrl` stands for
the host `URL` constructor check used by `validateUrl`; it is a parameter
because its parsing rules live outside this repository. -/
def validateSettings (validUrl : String → Bool) (f : SettingsFormState) :
    List (String × String) :=
  (if ¬ validateTime f.scheduledTime then
    [("scheduledTime", "Invalid time format (use HH:MM)")] else [])
  ++ (if f.llmTemperature < 0 ∨ f.llmTemperature > 1 then
    [("llmTemperature", "Temperature must be between 0 and 1")] else [])
  ++ (if f.llmTimeout < 5 ∨ f.llmTimeout > 30 then
    [("llmTimeout", "Timeout must be between 5 and 30 seconds")] else [])
  ++ (if f.retentionDays < 7 ∨ f.retentionDays > 365 then
    [("retentionDays", "Retention must be between 7 and 365 days")] else [])
  ++ (if f.jiraBaseUrl ≠ "" ∧ ¬ validUrl f.jiraBaseUrl then
    [("jiraBaseUrl", "Invalid URL format")] else [])

/-- Settings record built by `handleSave` right before `save_settings` is
invoked (empty strings become null, `calendarSource` is hard-coded). -/
def buildSettings (f : SettingsFormState) : Settings where
  scheduledTime := f.scheduledTime
  defaultTone := f.defaultTone
  enableLlm := f.enableLlm
  llmModel := f.llmModel
  llmTemperature := f.llmTemperature
  llmTimeoutSecs := f.llmTimeout
  calendarSource := "none"
  retentionDays := f.retentionDays
  jiraBaseUrl := if f.jiraBaseUrl = "" then none else some f.jiraBaseUrl
  jiraProjectKey := if f.jiraProjectKey = "" then none else some f.jiraProjectKey
  togglWorkspaceId := if f.togglWorkspaceId = "" then none else some f.togglWorkspaceId

/-- Sequence of `store_secret` invocations `handleSave` performs after a
successful `save_settings`, as (key, value) pairs: the email is stored when
non-empty, and each API token is stored only when non-empty and different
from the mask sentinel. -/
def handleSaveSecretCalls (f : SettingsFormState) : List (String × String) :=
  (if f.jiraEmail ≠ "" then [("jira_email", f.jiraEmail)] else [])
  ++ (if f.jiraApiToken ≠ "" ∧ f.jiraApiToken ≠ maskSentinel then
    [("jira_api_token", f.jiraApiToken)] else [])
  ++ (if f.togglApiToken ≠ "" ∧ f.togglApiToken ≠ maskSentinel then
    [("toggl_api_token", f.togglApiToken)] else [])

/-- Result of one run of `handleSave`: on validation failure nothing is
invoked (early return), otherwise the settings record is sent to
`save_settings` and the secret-store calls are issued. -/
structure SaveResult where
  savedSettings : Option Settings
  secretCalls : List (String × String)
  validationErrors : List (String × String)
deriving DecidableEq, Repr

/-- The save flow of `handleSave` in settings-panel-v2.tsx. -/
def handleSave (validUrl : String → Bool) (f : SettingsFormState) : SaveResult :=
  let errs := validateSettings validUrl f
  if errs = [] then
    { savedSettings := some (buildSettings f)
      secretCalls := handleSaveSecretCalls f
      validationErrors := [] }
  else
    { savedSettings := none, secretCalls := [], validationErrors := errs }

/-- Token actually used by `handleTestJira` / `handleTestToggl`: when the
form field holds the mask sentinel the stored secret is fetched and used,
otherwise the field value is used as typed. -/
def testConnectionToken (formToken : String) (storedSecret : Option String) : String :=
  if formToken = maskSentinel then storedSecret.getD "" else formToken

/-! ## Send modal (from send-modal.tsx) -/

/-- A persisted delivery-channel configuration row, from the
`DeliveryConfigRow` interface (the opaque `config` object is embedded as an
association list of its fields). -/
structure DeliveryConfigRow where
  deliveryType : String
  config : List (String × String)
  isEnabled : Bool
deriving DecidableEq, Repr

/-- One entry of the modal's delivery-method list, from the
`AvailableMethod` interface (the display-only `label` and `detail` strings
are omitted; `config` is `none` exactly when the optional field is unset). -/
structure AvailableMethod where
  id : String
  configured : Bool
  config : Option (List (String × String))
deriving DecidableEq, Repr

/-- The fixed method list built at the top of `loadDeliveryConfigs`. -/
def emptyMethods : List AvailableMethod :=
  [⟨"email", false, none⟩, ⟨"slack", false, none⟩, ⟨"file", false, none⟩]

/-- One iteration of the `configs.forEach` loop in `loadDeliveryConfigs`: a
row marks the method of its type configured and records its config, but only
when the row is enabled. -/
def applyConfigRow (methods : List AvailableMethod) (row : DeliveryConfigRow) :
    List AvailableMethod :=
  methods.map fun m =>
    if m.id = row.deliveryType ∧ row.isEnabled then
      { m with configured := true, config := some row.config }
    else m

/-- The method list produced by `loadDeliveryConfigs` from the persisted
rows. -/
def loadMethods (rows : List DeliveryConfigRow) : List AvailableMethod :=
  rows.foldl applyConfigRow emptyMethods

/-- Config of the method with the given id, `none` when the method is
absent or has no config (the `!method || !method.config` check in
`handleSend`). -/
def configOf (methods : List AvailableMethod) (id : String) :
    Option (List (String × String)) :=
  (methods.find? (fun m => m.id = id)).bind AvailableMethod.config

/-- The attempt set built by `handleSend`: each selected method id is mapped
to a delivery config when the method has one and is dropped (the
`filter c !== null` step) otherwise. -/
def buildSendConfigs (methods : List AvailableMethod) (selected : List String) :
    List DeliveryConfigRow :=
  selected.filterMap fun id =>
    (configOf methods id).map fun c => ⟨id, c, true⟩

/-- Modelled from the spec: the `send_summary` dispatcher lives in the Rust
core (`src-tauri`), which is not among the frontend sources; §4.5 of the
spec states that an empty attempt set raises `NoDeliverableChannel` and that
otherwise every channel of the attempt set yields exactly one confirmation
tagged with that channel.  `exec` stands for the per-channel delivery
attempt (success flag and message). -/
inductive DispatchError where
  | NoDeliverableChannel
deriving DecidableEq, Repr

/-- Modelled from the spec: dispatch over the attempt set, per §4.5 of the
spec (the Rust `send_summary` is not under the frontend sources).  Each
config in the attempt set independently yields one confirmation carrying its
channel type; an empty attempt set is the `NoDeliverableChannel` error. -/
def dispatch (configs : List DeliveryConfigRow)
    (exec : DeliveryConfigRow → Bool × String) (now : String) :
    Except DispatchError (List DeliveryConfirmation) :=
  if configs = [] then
    .error .NoDeliverableChannel
  else
    .ok (configs.map fun c => ⟨c.deliveryType, (exec c).1, (exec c).2, now⟩)

/-! ## OAuth event listeners (from handleConnectGoogle in settings-panel-v2.tsx) -/

/-- The two OAuth event channels the panel listens on. -/
inductive OAuthEventKind where
  | completed
  | errored
deriving DecidableEq, Repr

/-- One registered event listener: the flow (connect attempt) that
registered it and the event kind it listens for. -/
structure OAuthListener where
  flow : Nat
  kind : OAuthEventKind
deriving DecidableEq, Repr

/-- Listener registration performed by `handleConnectGoogle`: one
`oauth-completed` and one `oauth-error` listener are added for the new
flow. -/
def connectGoogle (flowId : Nat) (st : List OAuthListener) : List OAuthListener :=
  st ++ [⟨flowId, .completed⟩, ⟨flowId, .errored⟩]

/-- Delivery of one OAuth event: every registered listener of the matching
kind fires, and each fired handler unsubscribes only itself (the completion
handler calls only `unlisten_success`, the error handler only
`unlisten_error`; neither removes its sibling).  Returns the fired listeners
and the remaining registration state. -/
def deliverEvent (k : OAuthEventKind) (st : List OAuthListener) :
    List OAuthListener × List OAuthListener :=
  (st.filter (fun l => decide (l.kind = k)),
   st.filter (fun l => decide (l.kind ≠ k)))

/-! ## Aggregator (modelled from the spec, §4.3)

The Rust aggregator (`src-tauri/src/aggregation`) is not among the frontend
sources; the definitions below follow §4.3 of the spec against the
`AggregatedData` / `DataSourcesStatus` types of `src/types/index.ts`. -/

/-- Outcome of one source client's fetch, per the §4.1 contract collapsed to
the three states the status record distinguishes: success with data, failure
with a reason string, or not configured. -/
inductive FetchOutcome (α : Type) where
  | ok (data : α) (fetchedAt : String)
  | failed (reason : String)
  | notConfigured
deriving DecidableEq, Repr

/-- Status entry derived from one source outcome. -/
def outcomeStatus {α : Type} : FetchOutcome α → SourceStatusDetail
  | .ok _ t => ⟨.Ok, some t, none⟩
  | .failed r => ⟨.Failed, none, some r⟩
  | .notConfigured => ⟨.NotConfigured, none, none⟩

/-- Data carried by a successful outcome, or the empty value for a failed or
unconfigured source. -/
def outcomeData {α : Type} (empty : α) : FetchOutcome α → α
  | .ok d _ => d
  | .failed _ => empty
  | .notConfigured => empty

/-- Modelled from the spec: `aggregate` (the Rust aggregator is not under
the frontend sources) fans in the three source outcomes into one merged
result plus a per-source status record; a failed or unconfigured source
contributes empty data and only downgrades its own status entry (§4.3). -/
def aggregate (jira : FetchOutcome (List Ticket × List Ticket))
    (calendar : FetchOutcome (List Meeting)) (toggl : FetchOutcome Rat) :
    AggregatedData where
  ticketsClosed := (outcomeData ([], []) jira).1
  ticketsInProgress := (outcomeData ([], []) jira).2
  meetings := outcomeData [] calendar
  focusHours := outcomeData 0 toggl
  dataSourcesStatus :=
    ⟨outcomeStatus jira, outcomeStatus calendar, outcomeStatus toggl⟩

/-- The entries of the status record, one per known source, in the fixed
field order of `DataSourcesStatus`. -/
def statusEntries (s : DataSourcesStatus) : List (String × SourceStatus) :=
  [("jira", s.jira.status), ("calendar", s.calendar.status), ("toggl", s.toggl.status)]

/-! ## Summary store (modelled from the spec, §3 and §6)

The Rust summary store (`src-tauri`) is not among the frontend sources; the
store is embedded as a list of `SummaryResponse` rows with at most one row
per date, and the operations follow §3 of the spec. -/

/-- The unique row stored for a date, if any. -/
def findByDate (store : List SummaryResponse) (date : String) :
    Option SummaryResponse :=
  store.find? (fun r => r.summaryDate = date)

/-- Number of rows stored for a date. -/
def countByDate (store : List SummaryResponse) (date : String) : Nat :=
  (store.filter (fun r => r.summaryDate = date)).length

/-- Modelled from the spec: the overwrite a generate performs on an existing
row (§3 invariant: generate overwrites the aggregated fields and the
sources status, never the user-edited free-text fields or prior delivered-to
entries). -/
def mergeGenerate (old : SummaryResponse) (agg : AggregatedData) (now : String) :
    SummaryResponse :=
  { old with
    ticketsClosed := agg.ticketsClosed
    ticketsInProgress := agg.ticketsInProgress
    meetings := agg.meetings
    focusHours := agg.focusHours
    sourcesStatus := agg.dataSourcesStatus
    updatedAt := now }

/-- A fresh row created when no summary exists for the date yet. -/
def freshSummary (date : String) (agg : AggregatedData) (now : String) :
    SummaryResponse where
  id := 0
  summaryDate := date
  ticketsClosed := agg.ticketsClosed
  ticketsInProgress := agg.ticketsInProgress
  meetings := agg.meetings
  focusHours := agg.focusHours
  blockers := ""
  tomorrowPriorities := ""
  manualNotes := ""
  narrative := ""
  tone := ""
  deliveredTo := []
  createdAt := now
  updatedAt := now
  sourcesStatus := agg.dataSourcesStatus

/-- Modelled from the spec: the upsert-by-date a generate performs on the
store (§5: the unique-date constraint is enforced by the store, the second
writer overwrites). -/
def upsertSummary (store : List SummaryResponse) (date : String)
    (agg : AggregatedData) (now : String) : List SummaryResponse :=
  if store.any (fun r => decide (r.summaryDate = date)) then
    store.map fun r => if r.summaryDate = date then mergeGenerate r agg now else r
  else
    store ++ [freshSummary date agg now]

/-- Modelled from the spec: applying a `SummaryInput` draft save to a stored
row (§6 `save_summary`; the Rust handler is not under the frontend sources).
Only the five user-editable fields the input can carry are written; absent
fields keep the stored value. -/
def applySummaryInput (row : SummaryResponse) (input : SummaryInput)
    (now : String) : SummaryResponse :=
  { row with
    blockers := input.blockers.getD row.blockers
    tomorrowPriorities := input.tomorrowPriorities.getD row.tomorrowPriorities
    manualNotes := input.manualNotes.getD row.manualNotes
    narrative := input.narrative.getD row.narrative
    tone := input.tone.getD row.tone
    updatedAt := now }

/-- The `SummaryInput` built by `handleSave` in summary-review-panel.tsx:
only the four text fields are populated (empty strings become undefined),
and `tone` is never sent. -/
def draftSaveInput (blockers tomorrowPriorities manualNotes narrative : String) :
    SummaryInput where
  blockers := if blockers = "" then none else some blockers
  tomorrowPriorities :=
    if tomorrowPriorities = "" then none else some tomorrowPriorities
  manualNotes := if manualNotes = "" then none else some manualNotes
  narrative := if narrative = "" then none else some narrative
  tone := none

/-! ## Narrative generator (modelled from the spec, §4.4) -/

/-- Observable side channels of the orchestration operations, used to state
that an operation performs no source fetch. -/
inductive Effect where
  | fetchSource (source : String)
  | modelCall
deriving DecidableEq, Repr

/-- Whether an effect is a source fetch. -/
def isFetchEffect : Effect → Bool
  | .fetchSource _ => true
  | .modelCall => false

/-- Outcome of the local model invocation raced against the timeout. -/
inductive ModelOutcome where
  | ok (text : String)
  | timeout
  | connectionFailed
  | emptyResponse
  | malformed
deriving DecidableEq, Repr

/-- Whether the model invocation failed to produce usable text (timeout,
connection failure, empty or malformed response). -/
def modelFailed : ModelOutcome → Bool
  | .ok _ => false
  | .timeout => true
  | .connectionFailed => true
  | .emptyResponse => true
  | .malformed => true

/-- Modelled from the spec: the deterministic structured fallback (§4.4 and
glossary), a bullet-point rendering built directly from the structured data
(ticket titles, meeting count, focus hours).  It is a pure function of the
aggregated data: in this embedding that is the no-network-access property —
its output cannot depend on any network response. -/
def fallbackNarrative (agg : AggregatedData) : String :=
  let closedLines := agg.ticketsClosed.map fun t => "- " ++ t.id ++ ": " ++ t.title
  let progressLines := agg.ticketsInProgress.map fun t => "- " ++ t.id ++ ": " ++ t.title
  String.intercalate "\n"
    (["Tickets closed:"] ++ closedLines
      ++ ["Tickets in progress:"] ++ progressLines
      ++ ["Meetings attended: " ++ toString agg.meetings.length,
          "Focus hours: " ++ toString agg.focusHours.num
            ++ "/" ++ toString agg.focusHours.den])

/-- Modelled from the spec: narrative generation (§4.4).  A `Narrative` is
always produced; on any failed model outcome the result is the structured
fallback, and the second component is the status flag telling the caller the
result came from the fallback. -/
def generateNarrative (agg : AggregatedData) (outcome : ModelOutcome) :
    String × Bool :=
  match outcome with
  | .ok text => (text, false)
  | _ => (fallbackNarrative agg, true)

/-- Modelled from the spec: one `regenerate(summary_id, tone)` run against
the already persisted row (§4.4): it re-runs narrative generation on the
stored aggregated data — its only effect besides the stored narrative and
tone fields is the model call, never a source fetch. -/
def regenerateNarrativeOp (row : SummaryResponse) (tone : String)
    (outcome : ModelOutcome) : SummaryResponse × List Effect :=
  let agg : AggregatedData :=
    ⟨row.ticketsClosed, row.ticketsInProgress, row.meetings, row.focusHours,
      row.sourcesStatus⟩
  ({ row with narrative := (generateNarrative agg outcome).1, tone := tone },
   [Effect.modelCall])

/-- N successive regenerate calls, each with its own tone and model outcome,
accumulating the emitted effects. -/
def regenerateRuns (row : SummaryResponse)
    (attempts : List (String × ModelOutcome)) : SummaryResponse × List Effect :=
  attempts.foldl
    (fun acc a =>
      let step := regenerateNarrativeOp acc.1 a.1 a.2
      (step.1, acc.2 ++ step.2))
    (row, [])

/-! ## Concrete instances used by witnesses and counterexamples -/

/-- A sample ticket. -/
def wTicket : Ticket := ⟨"PROJ-1", "Fix login flow", "Done", "https://jira/PROJ-1", none⟩

/-- A sample Ok status entry. -/
def wStatusOk : SourceStatusDetail := ⟨.Ok, some "t0", none⟩

/-- A sample full status record. -/
def wSources : DataSourcesStatus := ⟨wStatusOk, wStatusOk, wStatusOk⟩

/-- Aggregated data of a first generate run. -/
def wAgg1 : AggregatedData := ⟨[wTicket], [], [], 0, wSources⟩

/-- Aggregated data of a second generate run. -/
def wAgg2 : AggregatedData := ⟨[], [wTicket], [], 1, wSources⟩

/-- A stored summary row for 2024-06-01 with user edits and one delivery. -/
def wRow : SummaryResponse :=
  ⟨1, "2024-06-01", [], [], [], 0, "waiting on VPN logs", "finish Okta testing",
    "misc notes", "old narrative", "professional", ["email"], "c0", "u0", wSources⟩

/-- A store holding exactly the row above. -/
def wStore : List SummaryResponse := [wRow]

/-- Settings form with an out-of-range LLM timeout (3 seconds). -/
def wFormReject : SettingsFormState :=
  ⟨"17:00", "professional", true, "qwen3:14b", 1, 3, "", "", "", "", "", "", 90⟩

/-- Settings form with an in-range LLM timeout (15 seconds). -/
def wFormAccept : SettingsFormState :=
  ⟨"17:00", "professional", true, "qwen3:14b", 1, 15, "", "", "", "", "", "", 90⟩

/-- Settings form whose scheduled time is the non-HH:MM string "7:5x". -/
def wFormTime : SettingsFormState :=
  ⟨"7:5x", "professional", true, "qwen3:14b", 1, 15, "", "", "", "", "", "", 90⟩

/-- Settings form where the Jira API token field holds the mask sentinel. -/
def wFormMasked : SettingsFormState :=
  ⟨"17:00", "professional", true, "qwen3:14b", 1, 15, "", "", "a@b.c",
    maskSentinel, "", "", 90⟩

/-- Settings form where the Jira API token field holds a freshly typed
token. -/
def wFormFresh : SettingsFormState :=
  ⟨"17:00", "professional", true, "qwen3:14b", 1, 15, "", "", "a@b.c",
    "newtok", "", "", 90⟩

/-- Delivery config rows: email enabled, slack present but disabled. -/
def wRows : List DeliveryConfigRow :=
  [⟨"email", [("toAddress", "me@x.y")], true⟩,
   ⟨"slack", [("webhookUrl", "u")], false⟩]

end WorkdayDebrief

/-! # Theorems -/

namespace WorkdayDebrief

/-- C10: the scheduled-time validator accepts a string exactly when
splitting it on the colon yields exactly two parts whose JavaScript
`parseInt` values (integer-prefix parses) lie in 0..23 and 0..59;
consequently the non-HH:MM string "7:5x" (trailing non-digits in the minute
part) passes validation and a settings save carrying it proceeds to
persist. -/
theorem validateTime_parseInt_characterization :
    (∀ t : String, validateTime t = true ↔
      ∃ a b hv mv, splitOnChar ':' t.toList = [a, b]
        ∧ jsParseIntChars a = some hv ∧ jsParseIntChars b = some mv
        ∧ 0 ≤ hv ∧ hv ≤ 23 ∧ 0 ≤ mv ∧ mv ≤ 59)
  ∧ validateTime "7:5x" = true
  ∧ (handleSave (fun _ => false) wFormTime).savedSettings
      = some (buildSettings wFormTime) := by
  refine ⟨fun t => ⟨fun hval => ?_, fun hex => ?_⟩, by decide, by decide⟩
  · unfold validateTime at hval
    rcases hs : splitOnChar ':' t.toList with _ | ⟨a, _ | ⟨b, _ | ⟨c, rest⟩⟩⟩ <;>
      rw [hs] at hval <;> simp only [validateTimeParts] at hval
    · exact absurd hval (by simp)
    · exact absurd hval (by simp)
    · rcases hp : jsParseIntChars a with _ | hv <;> rw [hp] at hval <;>
        rcases hq : jsParseIntChars b with _ | mv <;> rw [hq] at hval <;>
        simp only [validateHourMinute] at hval
      · exact absurd hval (by simp)
      · exact absurd hval (by simp)
      · exact absurd hval (by simp)
      · obtain ⟨h1, h2, h3, h4⟩ := of_decide_eq_true hval
        exact ⟨a, b, hv, mv, rfl, hp, hq, h1, h2, h3, h4⟩
    · exact absurd hval (by simp)
  · obtain ⟨a, b, hv, mv, hs, hp, hq, h1, h2, h3, h4⟩ := hex
    unfold validateTime
    rw [hs]
    simp only [validateTimeParts]
    rw [hp, hq]
    simp only [validateHourMinute]
    exact decide_eq_true ⟨h1, h2, h3, h4⟩

/-- Characterization of the llmTimeout entry of the `newErrors` record: it
is present exactly when the timeout lies outside 5..30. -/
theorem llmTimeout_mem_iff (validUrl : String → Bool) (f : SettingsFormState)
    (msg : String) :
    ("llmTimeout", msg) ∈ validateSettings validUrl f ↔
      msg = "Timeout must be between 5 and 30 seconds"
        ∧ (f.llmTimeout < 5 ∨ f.llmTimeout > 30) := by
  unfold validateSettings
  split_ifs with h1 h2 h3 h4 h5 <;> simp_all

/-- C7: a settings save whose `llmTimeoutSecs` is strictly below 5 or
strictly above 30 gets the timeout validation error and persists nothing
(`handleSave` returns before invoking `save_settings`); a timeout in 5..30
never produces the timeout error, and when the remaining fields also
validate, the save persists the built settings record. -/
theorem llmTimeout_validation (validUrl : String → Bool) (f : SettingsFormState) :
    ((f.llmTimeout < 5 ∨ f.llmTimeout > 30) →
      ("llmTimeout", "Timeout must be between 5 and 30 seconds")
          ∈ validateSettings validUrl f
        ∧ (handleSave validUrl f).savedSettings = none)
  ∧ (5 ≤ f.llmTimeout → f.llmTimeout ≤ 30 →
      (∀ msg, ("llmTimeout", msg) ∉ validateSettings validUrl f)
        ∧ (validateSettings validUrl f = [] →
            (handleSave validUrl f).savedSettings = some (buildSettings f))) := by
  constructor
  · intro hout
    have hm : ("llmTimeout", "Timeout must be between 5 and 30 seconds")
        ∈ validateSettings validUrl f :=
      (llmTimeout_mem_iff validUrl f _).2 ⟨rfl, hout⟩
    refine ⟨hm, ?_⟩
    unfold handleSave
    rw [if_neg (fun hnil => List.not_mem_nil _ (hnil ▸ hm))]
  · intro h5 h30
    refine ⟨fun msg hmem => ?_, fun hnil => ?_⟩
    · rcases (llmTimeout_mem_iff validUrl f msg).1 hmem with ⟨_, hout⟩
      omega
    · unfold handleSave
      rw [if_pos hnil]

/-- C7 witness: at the concrete rejecting form (timeout 3) the error is
raised and nothing persists; at the concrete accepting form (timeout 15)
the save persists the built record. -/
theorem llmTimeout_validation_witness :
    ((3 : Int) < 5 ∨ (3 : Int) > 30)
  ∧ (("llmTimeout", "Timeout must be between 5 and 30 seconds")
        ∈ validateSettings (fun _ => false) wFormReject
      ∧ (handleSave (fun _ => false) wFormReject).savedSettings = none)
  ∧ (handleSave (fun _ => false) wFormAccept).savedSettings
      = some (buildSettings wFormAccept) :=
  ⟨Or.inl (by decide),
    (llmTimeout_validation (fun _ => false) wFormReject).1 (Or.inl (by decide)),
    ((llmTimeout_validation (fun _ => false) wFormAccept).2 (by decide) (by decide)).2
      (by decide)⟩

/-- C2 counterexample: the mask-sentinel interpretation demonstrably lives
in the UI layer, not the vault-write path.  The UI save flow itself branches
on the sentinel — with the Jira token field holding the sentinel it omits
the `store_secret` call, while a freshly typed token produces the call — and
the UI connection-test flow substitutes the stored secret for the sentinel
before use.  This refutes the claim's assertion that the "no change"
interpretation of the sentinel is not performed in the UI layer. -/
theorem sentinel_ui_interpretation_counterexample :
    handleSaveSecretCalls wFormMasked = [("jira_email", "a@b.c")]
  ∧ handleSaveSecretCalls wFormFresh
      = [("jira_email", "a@b.c"), ("jira_api_token", "newtok")]
  ∧ testConnectionToken maskSentinel (some "realtoken") = "realtoken"
  ∧ testConnectionToken "typedtoken" (some "realtoken") = "typedtoken" := by
  decide

/-- C2 amended: the sentinel is interpreted as "no change" by the UI
settings-save path, which omits the `store_secret` call whenever an
API-token field equals the sentinel; hence no secret-store call issued by a
save ever carries the sentinel as an API-token value (the enforcement lives
in the UI layer rather than the vault-write path). -/
theorem sentinel_never_stored (f : SettingsFormState) (k v : String)
    (hmem : (k, v) ∈ handleSaveSecretCalls f)
    (hk : k = "jira_api_token" ∨ k = "toggl_api_token") :
    v ≠ maskSentinel := by
  unfold handleSaveSecretCalls at hmem
  simp only [List.mem_append] at hmem
  rcases hmem with (h | h) | h
  · split at h
    · simp only [List.mem_singleton, Prod.mk.injEq] at h
      rcases hk with hk | hk <;> rw [h.1] at hk <;> exact absurd hk (by decide)
    · exact absurd h (List.not_mem_nil _)
  · split at h
    · next hc =>
      simp only [List.mem_singleton, Prod.mk.injEq] at h
      rw [h.2]
      exact hc.2
    · exact absurd h (List.not_mem_nil _)
  · split at h
    · next hc =>
      simp only [List.mem_singleton, Prod.mk.injEq] at h
      rw [h.2]
      exact hc.2
    · exact absurd h (List.not_mem_nil _)

/-- C2 witness: the amended theorem applied at the concrete fresh-token
save. -/
theorem sentinel_never_stored_witness :
    (("jira_api_token", "newtok") ∈ handleSaveSecretCalls wFormFresh
      ∧ ("jira_api_token" = "jira_api_token"
          ∨ "jira_api_token" = "toggl_api_token"))
  ∧ "newtok" ≠ maskSentinel :=
  ⟨⟨by decide, Or.inl rfl⟩,
    sentinel_never_stored wFormFresh "jira_api_token" "newtok" (by decide)
      (Or.inl rfl)⟩

/-- C6: evaluation of the listener model at the failing input.  Flow 1's
error event fires and its error handler unsubscribes only itself, leaving
flow 1's completion listener registered; the user retries as flow 2, whose
completion event then fires both flow 2's and the stale flow 1 completion
handler — a handler registered for flow 1 runs for a later event after flow
1 already resolved, contradicting exactly-once consumption. -/
theorem oauth_listener_leak :
    (deliverEvent .errored (connectGoogle 1 [])).1 = [⟨1, .errored⟩]
  ∧ (deliverEvent .completed
        (connectGoogle 2 (deliverEvent .errored (connectGoogle 1 [])).2)).1
      = [⟨1, .completed⟩, ⟨2, .completed⟩] := by
  decide

/-- C3: for every combination of the three source outcomes, `aggregate`
returns a merged result (a total function into `AggregatedData` — its type
admits no error path), whose status record lists exactly one entry per
known source, in order `jira`, `calendar`, `toggl`, each entry in
{Ok, Failed, NotConfigured}. -/
theorem aggregate_status_total (j : FetchOutcome (List Ticket × List Ticket))
    (c : FetchOutcome (List Meeting)) (t : FetchOutcome Rat) :
    (statusEntries (aggregate j c t).dataSourcesStatus).map Prod.fst
        = ["jira", "calendar", "toggl"]
  ∧ ((aggregate j c t).dataSourcesStatus.jira.status = SourceStatus.Ok
      ∨ (aggregate j c t).dataSourcesStatus.jira.status = SourceStatus.Failed
      ∨ (aggregate j c t).dataSourcesStatus.jira.status = SourceStatus.NotConfigured)
  ∧ ((aggregate j c t).dataSourcesStatus.calendar.status = SourceStatus.Ok
      ∨ (aggregate j c t).dataSourcesStatus.calendar.status = SourceStatus.Failed
      ∨ (aggregate j c t).dataSourcesStatus.calendar.status = SourceStatus.NotConfigured)
  ∧ ((aggregate j c t).dataSourcesStatus.toggl.status = SourceStatus.Ok
      ∨ (aggregate j c t).dataSourcesStatus.toggl.status = SourceStatus.Failed
      ∨ (aggregate j c t).dataSourcesStatus.toggl.status = SourceStatus.NotConfigured) := by
  refine ⟨rfl, ?_, ?_, ?_⟩
  · cases j <;> simp [aggregate, outcomeStatus]
  · cases c <;> simp [aggregate, outcomeStatus]
  · cases t <;> simp [aggregate, outcomeStatus]

/-- C9: the draft-save input built by the summary panel populates only the
four text fields (`tone` is always absent), and applying any `SummaryInput`
to a stored row leaves every aggregated field, the delivered-to set, the
sources status and the date unchanged — a draft save can never alter them. -/
theorem draft_save_frame (b t m n now : String) (row : SummaryResponse)
    (input : SummaryInput) :
    (draftSaveInput b t m n).tone = none
  ∧ (applySummaryInput row input now).ticketsClosed = row.ticketsClosed
  ∧ (applySummaryInput row input now).ticketsInProgress = row.ticketsInProgress
  ∧ (applySummaryInput row input now).meetings = row.meetings
  ∧ (applySummaryInput row input now).focusHours = row.focusHours
  ∧ (applySummaryInput row input now).deliveredTo = row.deliveredTo
  ∧ (applySummaryInput row input now).sourcesStatus = row.sourcesStatus
  ∧ (applySummaryInput row input now).summaryDate = row.summaryDate :=
  ⟨rfl, rfl, rfl, rfl, rfl, rfl, rfl, rfl⟩

/-- The fold underlying `regenerateRuns` changes only the narrative and the
tone of the row in its accumulator, and adds no source-fetch effect. -/
theorem regenerateRuns_foldl_frame (attempts : List (String × ModelOutcome))
    (acc : SummaryResponse × List Effect) :
    ∃ nar tn,
      (attempts.foldl
        (fun acc a =>
          let step := regenerateNarrativeOp acc.1 a.1 a.2
          (step.1, acc.2 ++ step.2)) acc).1
        = { acc.1 with narrative := nar, tone := tn }
    ∧ (attempts.foldl
        (fun acc a =>
          let step := regenerateNarrativeOp acc.1 a.1 a.2
          (step.1, acc.2 ++ step.2)) acc).2.any isFetchEffect
        = acc.2.any isFetchEffect := by
  induction attempts generalizing acc with
  | nil => exact ⟨acc.1.narrative, acc.1.tone, rfl, rfl⟩
  | cons a as ih =>
    simp only [List.foldl_cons]
    obtain ⟨nar, tn, h1, h2⟩ :=
      ih ((regenerateNarrativeOp acc.1 a.1 a.2).1,
          acc.2 ++ (regenerateNarrativeOp acc.1 a.1 a.2).2)
    refine ⟨nar, tn, h1, ?_⟩
    rw [h2]
    simp [regenerateNarrativeOp, isFetchEffect]

/-- C5: any number of successive regenerate calls against a stored row
leaves the persisted ticket lists, meetings, focus hours, user free-text
fields, delivered-to set and sources status identical, and emits no
source-fetch effect (regenerate never re-fetches). -/
theorem regenerate_frame_no_fetch (row : SummaryResponse)
    (attempts : List (String × ModelOutcome)) :
    (regenerateRuns row attempts).1.ticketsClosed = row.ticketsClosed
  ∧ (regenerateRuns row attempts).1.ticketsInProgress = row.ticketsInProgress
  ∧ (regenerateRuns row attempts).1.meetings = row.meetings
  ∧ (regenerateRuns row attempts).1.focusHours = row.focusHours
  ∧ (regenerateRuns row attempts).1.blockers = row.blockers
  ∧ (regenerateRuns row attempts).1.tomorrowPriorities = row.tomorrowPriorities
  ∧ (regenerateRuns row attempts).1.manualNotes = row.manualNotes
  ∧ (regenerateRuns row attempts).1.deliveredTo = row.deliveredTo
  ∧ (regenerateRuns row attempts).1.sourcesStatus = row.sourcesStatus
  ∧ (regenerateRuns row attempts).2.any isFetchEffect = false := by
  obtain ⟨nar, tn, h1, h2⟩ := regenerateRuns_foldl_frame attempts (row, [])
  unfold regenerateRuns
  rw [h1, h2]
  exact ⟨rfl, rfl, rfl, rfl, rfl, rfl, rfl, rfl, rfl, rfl⟩

/-- C8: whenever the model call fails (timeout, connection failure, empty
or malformed response), the produced narrative is exactly the deterministic
structured fallback of the aggregated data and is flagged as such; two
invocations on identical input data under any two failure outcomes produce
identical text.  `fallbackNarrative` takes only the aggregated data — in
this embedding its independence from any network response is the
no-network-access property. -/
theorem fallback_deterministic (agg agg2 : AggregatedData)
    (o o2 : ModelOutcome) (heq : agg = agg2) (h1 : modelFailed o = true)
    (h2 : modelFailed o2 = true) :
    generateNarrative agg o = generateNarrative agg2 o2
  ∧ (generateNarrative agg o).1 = fallbackNarrative agg
  ∧ (generateNarrative agg o).2 = true := by
  subst heq
  cases o <;> cases o2 <;> simp_all [generateNarrative, modelFailed]

/-- C8 witness: the theorem applied at concrete aggregated data with a
timeout and a connection failure. -/
theorem fallback_deterministic_witness :
    (wAgg1 = wAgg1 ∧ modelFailed ModelOutcome.timeout = true
      ∧ modelFailed ModelOutcome.connectionFailed = true)
  ∧ generateNarrative wAgg1 ModelOutcome.timeout
      = generateNarrative wAgg1 ModelOutcome.connectionFailed
  ∧ (generateNarrative wAgg1 ModelOutcome.timeout).1 = fallbackNarrative wAgg1
  ∧ (generateNarrative wAgg1 ModelOutcome.timeout).2 = true :=
  ⟨⟨rfl, rfl, rfl⟩, fallback_deterministic wAgg1 wAgg1 _ _ rfl rfl rfl⟩

/-- Mapping an element-wise transformation that does not disturb the search
predicate commutes with `find?`. -/
theorem find?_map_id_stable {α : Type} (p : α → Bool) (g : α → α)
    (hg : ∀ x, p (g x) = p x) (l : List α) :
    (l.map g).find? p = (l.find? p).map g := by
  induction l with
  | nil => rfl
  | cons x xs ih =>
    simp only [List.map_cons]
    cases hx : p x
    · rw [List.find?_cons_of_neg _ (by simp [hg, hx]),
        List.find?_cons_of_neg _ (by simp [hx]), ih]
    · rw [List.find?_cons_of_pos _ (by rw [hg]; exact hx),
        List.find?_cons_of_pos _ (by exact hx)]
      rfl

/-- A config row that is disabled or of a different type does not change the
config the modal sees for a given channel id. -/
theorem configOf_applyConfigRow (methods : List AvailableMethod)
    (row : DeliveryConfigRow) (id : String)
    (hrow : row.deliveryType ≠ id ∨ row.isEnabled = false) :
    configOf (applyConfigRow methods row) id = configOf methods id := by
  unfold configOf applyConfigRow
  rw [find?_map_id_stable _ _ (fun x => by split <;> rfl)]
  cases hf : methods.find? (fun m => decide (m.id = id)) with
  | none => rfl
  | some m =>
    have hp :=
      @List.find?_some AvailableMethod (fun m => decide (m.id = id)) m methods hf
    have hm : m.id = id := of_decide_eq_true hp
    simp only [Option.map_some', Option.some_bind]
    have hcond : ¬ (m.id = row.deliveryType ∧ row.isEnabled = true) := by
      rintro ⟨hid, hen⟩
      rcases hrow with h | h
      · exact h (hid ▸ hm)
      · rw [h] at hen
        cases hen
    rw [if_neg hcond]

/-- When every method in the list carries no config, the lookup yields
none. -/
theorem configOf_none_of_all_none (methods : List AvailableMethod)
    (id : String) (h : ∀ m ∈ methods, m.config = none) :
    configOf methods id = none := by
  unfold configOf
  cases hf : methods.find? (fun m => decide (m.id = id)) with
  | none => rfl
  | some m =>
    simp only [Option.some_bind]
    exact h m (List.mem_of_find?_eq_some hf)

/-- A channel id all of whose persisted rows are disabled (in particular an
absent channel) ends up with no config after `loadDeliveryConfigs`. -/
theorem configOf_loadMethods_none (rows : List DeliveryConfigRow)
    (id : String)
    (hdis : ∀ row ∈ rows, row.deliveryType = id → row.isEnabled = false) :
    configOf (loadMethods rows) id = none := by
  unfold loadMethods
  have hbase : configOf emptyMethods id = none :=
    configOf_none_of_all_none _ _ (by decide)
  clear hbase
  have main : ∀ (rs : List DeliveryConfigRow) (methods : List AvailableMethod),
      (∀ row ∈ rs, row.deliveryType = id → row.isEnabled = false) →
      configOf methods id = none →
      configOf (rs.foldl applyConfigRow methods) id = none := by
    intro rs
    induction rs with
    | nil => exact fun methods _ h => h
    | cons r rest ih =>
      intro methods hd h
      simp only [List.foldl_cons]
      refine ih _ (fun x hx hdt => hd x (List.mem_cons_of_mem _ hx) hdt) ?_
      have hrow : r.deliveryType ≠ id ∨ r.isEnabled = false := by
        by_cases hr : r.deliveryType = id
        · exact Or.inr (hd r (List.mem_cons_self _ _) hr)
        · exact Or.inl hr
      rw [configOf_applyConfigRow _ _ _ hrow, h]
  exact main rows emptyMethods hdis (configOf_none_of_all_none _ _ (by decide))

/-- A channel with no config never appears in the attempt set `handleSend`
builds. -/
theorem buildSendConfigs_excludes (methods : List AvailableMethod)
    (selected : List String) (id : String)
    (hnone : configOf methods id = none) :
    ∀ c ∈ buildSendConfigs methods selected, c.deliveryType ≠ id := by
  intro c hc
  unfold buildSendConfigs at hc
  rw [List.mem_filterMap] at hc
  obtain ⟨a, _, hfa⟩ := hc
  cases hcfg : configOf methods a with
  | none =>
    rw [hcfg] at hfa
    cases hfa
  | some cfg =>
    rw [hcfg] at hfa
    simp only [Option.map_some', Option.some.injEq] at hfa
    rw [← hfa]
    intro hdt
    rw [show a = id from hdt] at hcfg
    rw [hcfg] at hnone
    cases hnone

/-- C4: for every dispatch run over a non-empty selection of channel ids: a
selected channel all of whose persisted config rows are disabled (or which
has none at all) is silently excluded from the attempt set — the attempt
set is built by a total function, no error is raised for it; an empty
attempt set makes the dispatcher raise `NoDeliverableChannel` rather than
return an empty list; and otherwise the dispatcher returns exactly one
confirmation per attempt-set entry, tagged with that entry's channel, so
the output length equals the attempt-set size. -/
theorem send_dispatch_confirmations (rows : List DeliveryConfigRow)
    (selected : List String) (exec : DeliveryConfigRow → Bool × String)
    (now : String) (hne : selected ≠ []) :
    (∀ id ∈ selected,
      (∀ row ∈ rows, row.deliveryType = id → row.isEnabled = false) →
      ∀ c ∈ buildSendConfigs (loadMethods rows) selected, c.deliveryType ≠ id)
  ∧ (buildSendConfigs (loadMethods rows) selected = [] →
      dispatch (buildSendConfigs (loadMethods rows) selected) exec now
        = Except.error DispatchError.NoDeliverableChannel)
  ∧ (buildSendConfigs (loadMethods rows) selected ≠ [] →
      ∃ confs,
        dispatch (buildSendConfigs (loadMethods rows) selected) exec now
            = Except.ok confs
        ∧ confs.length
            = (buildSendConfigs (loadMethods rows) selected).length
        ∧ confs.map DeliveryConfirmation.deliveryType
            = (buildSendConfigs (loadMethods rows) selected).map
                DeliveryConfigRow.deliveryType) := by
  refine ⟨fun id _ hdis => ?_, fun hemp => ?_, fun hne2 => ?_⟩
  · exact buildSendConfigs_excludes _ _ _ (configOf_loadMethods_none rows id hdis)
  · unfold dispatch
    rw [if_pos hemp]
  · unfold dispatch
    rw [if_neg hne2]
    refine ⟨_, rfl, by simp, ?_⟩
    rw [List.map_map]
    rfl

/-- C4 witness: concrete rows with email enabled and slack disabled; the
selection {email, slack, file} yields an attempt set of exactly the email
channel and one matching confirmation. -/
theorem send_dispatch_confirmations_witness :
    (["email", "slack", "file"] ≠ ([] : List String))
  ∧ (buildSendConfigs (loadMethods wRows) ["email", "slack", "file"] ≠ [])
  ∧ ∃ confs,
      dispatch (buildSendConfigs (loadMethods wRows) ["email", "slack", "file"])
          (fun _ => (true, "sent")) "t0"
        = Except.ok confs
      ∧ confs.length
          = (buildSendConfigs (loadMethods wRows) ["email", "slack", "file"]).length
      ∧ confs.map DeliveryConfirmation.deliveryType
          = (buildSendConfigs (loadMethods wRows) ["email", "slack", "file"]).map
              DeliveryConfigRow.deliveryType :=
  ⟨by decide, by decide,
    (send_dispatch_confirmations wRows ["email", "slack", "file"]
      (fun _ => (true, "sent")) "t0" (by decide)).2.2 (by decide)⟩

/-- Mapping a transformation that does not disturb the predicate commutes
with `filter`. -/
theorem filter_map_id_stable {α : Type} (p : α → Bool) (g : α → α)
    (hg : ∀ x, p (g x) = p x) (l : List α) :
    (l.map g).filter p = (l.filter p).map g := by
  induction l with
  | nil => rfl
  | cons x xs ih =>
    simp only [List.map_cons]
    cases hx : p x
    · rw [List.filter_cons_of_neg (by simp [hg, hx]),
        List.filter_cons_of_neg (by simp [hx]), ih]
    · rw [List.filter_cons_of_pos (by simp [hg, hx]),
        List.filter_cons_of_pos (by simp [hx]), ih, List.map_cons]

/-- Upserting over an existing row for the date rewrites exactly that row
through `mergeGenerate`. -/
theorem findByDate_upsert (store : List SummaryResponse) (date : String)
    (agg : AggregatedData) (now : String) (r : SummaryResponse)
    (h : findByDate store date = some r) :
    findByDate (upsertSummary store date agg now) date
      = some (mergeGenerate r agg now) := by
  have hp :=
    @List.find?_some SummaryResponse (fun x => decide (x.summaryDate = date))
      r store h
  have hmem := List.mem_of_find?_eq_some h
  have hany : store.any (fun x => decide (x.summaryDate = date)) = true :=
    List.any_eq_true.2 ⟨r, hmem, hp⟩
  unfold upsertSummary
  rw [if_pos hany]
  unfold findByDate at h ⊢
  rw [find?_map_id_stable _ _ (fun x => by split <;> rfl), h]
  simp only [Option.map_some']
  rw [if_pos (of_decide_eq_true hp)]

/-- Upserting over an existing row for the date does not change how many
rows the store holds for that date. -/
theorem countByDate_upsert (store : List SummaryResponse) (date : String)
    (agg : AggregatedData) (now : String) (r : SummaryResponse)
    (h : findByDate store date = some r) :
    countByDate (upsertSummary store date agg now) date
      = countByDate store date := by
  have hp :=
    @List.find?_some SummaryResponse (fun x => decide (x.summaryDate = date))
      r store h
  have hmem := List.mem_of_find?_eq_some h
  have hany : store.any (fun x => decide (x.summaryDate = date)) = true :=
    List.any_eq_true.2 ⟨r, hmem, hp⟩
  unfold upsertSummary countByDate
  rw [if_pos hany,
    filter_map_id_stable _ _ (fun x => by split <;> rfl), List.length_map]

/-- C1: a generate over a date with an existing summary row overwrites
exactly the aggregated fields and the sources status of that row while
keeping the user-edited free-text fields and all prior delivered-to entries;
and two successive upserts for the same date (the simulated race) leave
exactly one row for that date, with the second write's aggregated fields
winning and the original user fields and delivered-to entries still
intact. -/
theorem generate_upsert_frame (store : List SummaryResponse)
    (r : SummaryResponse) (date : String) (agg1 agg2 : AggregatedData)
    (t1 t2 : String) (hfind : findByDate store date = some r) :
    (findByDate (upsertSummary store date agg1 t1) date
        = some (mergeGenerate r agg1 t1)
      ∧ (mergeGenerate r agg1 t1).blockers = r.blockers
      ∧ (mergeGenerate r agg1 t1).tomorrowPriorities = r.tomorrowPriorities
      ∧ (mergeGenerate r agg1 t1).manualNotes = r.manualNotes
      ∧ (mergeGenerate r agg1 t1).deliveredTo = r.deliveredTo
      ∧ (mergeGenerate r agg1 t1).ticketsClosed = agg1.ticketsClosed
      ∧ (mergeGenerate r agg1 t1).ticketsInProgress = agg1.ticketsInProgress
      ∧ (mergeGenerate r agg1 t1).meetings = agg1.meetings
      ∧ (mergeGenerate r agg1 t1).focusHours = agg1.focusHours
      ∧ (mergeGenerate r agg1 t1).sourcesStatus = agg1.dataSourcesStatus)
  ∧ (countByDate store date = 1 →
      countByDate
        (upsertSummary (upsertSummary store date agg1 t1) date agg2 t2) date
        = 1)
  ∧ (findByDate
        (upsertSummary (upsertSummary store date agg1 t1) date agg2 t2) date
        = some (mergeGenerate (mergeGenerate r agg1 t1) agg2 t2)
      ∧ (mergeGenerate (mergeGenerate r agg1 t1) agg2 t2).ticketsClosed
          = agg2.ticketsClosed
      ∧ (mergeGenerate (mergeGenerate r agg1 t1) agg2 t2).sourcesStatus
          = agg2.dataSourcesStatus
      ∧ (mergeGenerate (mergeGenerate r agg1 t1) agg2 t2).deliveredTo
          = r.deliveredTo
      ∧ (mergeGenerate (mergeGenerate r agg1 t1) agg2 t2).blockers = r.blockers
      ∧ (mergeGenerate (mergeGenerate r agg1 t1) agg2 t2).tomorrowPriorities
          = r.tomorrowPriorities
      ∧ (mergeGenerate (mergeGenerate r agg1 t1) agg2 t2).manualNotes
          = r.manualNotes) := by
  have h1 := findByDate_upsert store date agg1 t1 r hfind
  have h2 := findByDate_upsert _ date agg2 t2 _ h1
  refine ⟨⟨h1, rfl, rfl, rfl, rfl, rfl, rfl, rfl, rfl, rfl⟩,
    fun hc => ?_, ⟨h2, rfl, rfl, rfl, rfl, rfl, rfl⟩⟩
  rw [countByDate_upsert _ _ agg2 t2 _ h1,
    countByDate_upsert _ _ agg1 t1 _ hfind, hc]

/-- C1 witness: the theorem applied at the concrete one-row store for
2024-06-01 with two successive generates. -/
theorem generate_upsert_frame_witness :
    findByDate wStore "2024-06-01" = some wRow
  ∧ countByDate
      (upsertSummary (upsertSummary wStore "2024-06-01" wAgg1 "t1")
        "2024-06-01" wAgg2 "t2") "2024-06-01" = 1
  ∧ findByDate
      (upsertSummary (upsertSummary wStore "2024-06-01" wAgg1 "t1")
        "2024-06-01" wAgg2 "t2") "2024-06-01"
      = some (mergeGenerate (mergeGenerate wRow wAgg1 "t1") wAgg2 "t2") :=
  ⟨by decide,
    (generate_upsert_frame wStore wRow "2024-06-01" wAgg1 wAgg2 "t1" "t2"
      (by decide)).2.1 (by decide),
    ((generate_upsert_frame wStore wRow "2024-06-01" wAgg1 wAgg2 "t1" "t2"
      (by decide)).2.2).1⟩

end WorkdayDebrief
